import Mathlib

/-!
# SentinelLab: a verified shallow embedding

This file embeds the SentinelLab repository (a log-shipping agent in
src/agent/sentinellab_agent.py and a collector/API service in
src/soc-api/app/main.py with src/soc-api/app/models.py) into Lean 4 and
proves properties of the embedded code.

Modelling conventions:
* Instants (datetime values produced by datetime.now and stored in
  received_at / created_at columns) are abstract integers; comparisons
  such as "received_at >= window_start" become integer comparisons, and
  timedelta(minutes=2) becomes the integer 120 (seconds).
* A timezone-aware Python datetime carried in an event payload is a pair
  of a wall-clock value and an optional tz offset ("Ts" below), since the
  only operations the source performs on it are "tzinfo is None" and
  "replace(tzinfo=timezone.utc)".
* JSON responses whose field sets matter are modelled as association
  lists of field name to primitive value; a serialized datetime
  (isoformat is injective on instants) is represented by the instant.
* A database table is a list of rows in insertion order with an
  auto-increment id counter; "ORDER BY x DESC LIMIT n" is insertion sort
  by the corresponding descending relation followed by take.
-/

/-- A JSON primitive value appearing in a response object.  A serialized
datetime (the result of isoformat) is represented by the abstract value it
serializes, keeping the representation injective. -/
inductive JVal where
  | str (s : String)
  | int (n : Int)
  | bool (b : Bool)
  | null
  | tsv (wall : Int) (tz : Option Int)
deriving DecidableEq, Repr

/-- A JSON object: an association list from field names to primitives. -/
abbrev JObj := List (String × JVal)

/-- Serialization of an optional string column: None becomes JSON null. -/
def optStr : Option String → JVal
  | some s => .str s
  | none => .null

/-- A Python datetime as far as the collector inspects it: a wall-clock
instant plus an optional timezone offset (tzinfo).  The source only ever
tests "tzinfo is None" and rewrites tzinfo to UTC (offset 0). -/
structure Ts where
  wall : Int
  tz : Option Int
deriving DecidableEq, Repr

/-- A row of the events table (src/soc-api/app/models.py, class Event). -/
structure EventRow where
  id : Int
  ts : Ts
  host : String
  event_type : String
  src_ip : Option String
  user : Option String
  message : String
  received_at : Int
deriving DecidableEq, Repr

/-- A row of the alerts table (src/soc-api/app/models.py, class Alert). -/
structure AlertRow where
  id : Int
  created_at : Int
  resolved_at : Option Int
  rule : String
  severity : String
  host : Option String
  src_ip : Option String
  user : Option String
  message : String
  is_active : Bool
deriving DecidableEq, Repr

/-- The collector's database: both tables plus auto-increment counters. -/
structure ServerState where
  events : List EventRow
  alerts : List AlertRow
  nextEventId : Int
  nextAlertId : Int
deriving DecidableEq, Repr

/-- The validated /ingest payload (class IngestEvent in main.py); pydantic
has already parsed ts into a datetime and checked the length bounds and the
event_type enumeration before the handler body runs. -/
structure IngestEvent where
  ts : Ts
  host : String
  event_type : String
  src_ip : Option String
  user : Option String
  message : String
deriving DecidableEq, Repr

/-- The /ingest success response body. -/
structure IngestResp where
  ok : Bool
  event_id : Int
deriving DecidableEq, Repr

/-- Python truthiness of an Optional[str]: None and the empty string are
falsy, every other string is truthy. -/
def truthyOpt : Option String → Bool
  | some s => s != ""
  | none => false

/-- The normalized ts stored by ingest: "if ts.tzinfo is None:
ts = ts.replace(tzinfo=timezone.utc)". -/
def normTs (t : Ts) : Ts :=
  match t.tz with
  | none => { t with tz := some 0 }
  | some _ => t

/-- The Event row ingest builds and inserts (main.py lines 54-62):
every payload field copied through, received_at stamped with the
collector's current UTC clock. -/
def ingestRow (st : ServerState) (now : Int) (event : IngestEvent) : EventRow :=
  { id := st.nextEventId
    ts := normTs event.ts
    host := event.host
    event_type := event.event_type
    src_ip := event.src_ip
    user := event.user
    message := event.message
    received_at := now }

/-- The brute-force failure count (main.py lines 71-78): events with
event_type ssh_failed_login, the matching src_ip, and received_at inside
the 2-minute window. -/
def failCountFor (events : List EventRow) (ip : Option String) (windowStart : Int) : Nat :=
  (events.filter (fun e =>
    e.event_type == "ssh_failed_login" && e.src_ip == ip && windowStart ≤ e.received_at)).length

/-- The duplicate-suppression query (main.py lines 80-87): does some alert
with rule ssh_bruteforce and the matching src_ip have created_at inside the
2-minute window? -/
def hasRecentAlert (alerts : List AlertRow) (ip : Option String) (windowStart : Int) : Bool :=
  alerts.any (fun a =>
    a.rule == "ssh_bruteforce" && a.src_ip == ip && windowStart ≤ a.created_at)

/-- The Alert row the detection rule inserts when it fires
(main.py lines 90-99). -/
def bruteforceAlert (st1 : ServerState) (now : Int) (row : EventRow) (fail_count : Nat) : AlertRow :=
  { id := st1.nextAlertId
    created_at := now
    resolved_at := none
    rule := "ssh_bruteforce"
    severity := "high"
    host := some row.host
    src_ip := row.src_ip
    user := row.user
    message := "SSH brute force suspected: " ++ toString fail_count
      ++ " failures in 2 min from " ++ (row.src_ip.getD "")
    is_active := true }

/-- POST /ingest (main.py lines 48-103).  The handler normalizes ts,
inserts the Event row, and, when the new row is an ssh_failed_login with a
truthy src_ip, evaluates the brute-force rule: count the failures for that
src_ip whose received_at lies in the last 2 minutes, check for an alert
with that rule and src_ip created in the last 2 minutes, and insert a new
high-severity active alert when the count reaches 5 and no such alert
exists.  The handler's successive datetime.now(timezone.utc) reads are
modelled by the single instant now. -/
def ingest (st : ServerState) (now : Int) (event : IngestEvent) : ServerState × IngestResp :=
  let row := ingestRow st now event
  let st1 : ServerState :=
    { st with events := st.events ++ [row], nextEventId := st.nextEventId + 1 }
  let st2 : ServerState :=
    if row.event_type == "ssh_failed_login" && truthyOpt row.src_ip then
      let windowStart := now - 120
      let fail_count := failCountFor st1.events row.src_ip windowStart
      let recent_alert := hasRecentAlert st1.alerts row.src_ip windowStart
      if 5 ≤ fail_count && !recent_alert then
        { st1 with
          alerts := st1.alerts ++ [bruteforceAlert st1 now row fail_count]
          nextAlertId := st1.nextAlertId + 1 }
      else st1
    else st1
  (st2, { ok := true, event_id := row.id })

/-- The /ingest route seen at the HTTP level.  The route in src declares no
header parameters and no authentication dependency: the handler receives
only the parsed body, so the request headers (in particular X-Timestamp,
X-Nonce and X-Signature) never influence the outcome. -/
def ingestHttp (_headers : List (String × String)) (st : ServerState) (now : Int)
    (event : IngestEvent) : ServerState × IngestResp :=
  ingest st now event

/-- ORDER BY received_at DESC on the events table. -/
def eventDesc (a b : EventRow) : Prop := b.received_at ≤ a.received_at

instance : DecidableRel eventDesc := fun a b => inferInstanceAs (Decidable (_ ≤ _))

instance : IsTotal EventRow eventDesc := ⟨fun a b => le_total b.received_at a.received_at⟩

instance : IsTrans EventRow eventDesc := ⟨fun _ _ _ h h' => le_trans h' h⟩

/-- ORDER BY created_at DESC on the alerts table. -/
def alertDesc (a b : AlertRow) : Prop := b.created_at ≤ a.created_at

instance : DecidableRel alertDesc := fun a b => inferInstanceAs (Decidable (_ ≤ _))

instance : IsTotal AlertRow alertDesc := ⟨fun a b => le_total b.created_at a.created_at⟩

instance : IsTrans AlertRow alertDesc := ⟨fun _ _ _ h h' => le_trans h' h⟩

/-- A {count, items} listing response. -/
structure ListResp where
  count : Nat
  items : List JObj
deriving DecidableEq, Repr

/-- The item dictionary built by GET /events for each row
(main.py lines 112-124). -/
def eventItem (r : EventRow) : JObj :=
  [ ("id", .int r.id)
  , ("ts", .tsv r.ts.wall r.ts.tz)
  , ("host", .str r.host)
  , ("event_type", .str r.event_type)
  , ("src_ip", optStr r.src_ip)
  , ("user", optStr r.user)
  , ("message", .str r.message)
  , ("received_at", .int r.received_at) ]

/-- GET /events (main.py lines 106-125): clamp the limit to [1, 500], take
the most recent rows by received_at descending, serialize them. -/
def list_events (st : ServerState) (limit : Int) : ListResp :=
  let lim := max 1 (min limit 500)
  let rows := (List.insertionSort eventDesc st.events).take lim.toNat
  let items := rows.map eventItem
  { count := items.length, items := items }

/-- The item dictionary built by GET /alerts for each row
(main.py lines 134-147); note it has no resolved_at entry. -/
def alertItem (a : AlertRow) : JObj :=
  [ ("id", .int a.id)
  , ("created_at", .int a.created_at)
  , ("rule", .str a.rule)
  , ("severity", .str a.severity)
  , ("host", optStr a.host)
  , ("src_ip", optStr a.src_ip)
  , ("user", optStr a.user)
  , ("message", .str a.message)
  , ("is_active", .bool a.is_active) ]

/-- GET /alerts (main.py lines 128-148): clamp the limit to [1, 200], take
the most recent rows by created_at descending, serialize them. -/
def list_alerts (st : ServerState) (limit : Int) : ListResp :=
  let lim := max 1 (min limit 200)
  let rows := (List.insertionSort alertDesc st.alerts).take lim.toNat
  let items := rows.map alertItem
  { count := items.length, items := items }

/-- PATCH /alerts/{id}/resolve (main.py lines 199-207): 404 when the id is
unknown; otherwise set is_active to False (nothing else — resolved_at is
not touched and there is no already-resolved branch) and answer
{ok, id, status: "resolved"}. -/
def resolve_alert (st : ServerState) (alert_id : Int) : ServerState × Except Nat JObj :=
  match st.alerts.find? (fun a => a.id == alert_id) with
  | none => (st, .error 404)
  | some alert =>
      let st' := { st with
        alerts := st.alerts.map (fun a =>
          if a.id == alert_id then { a with is_active := false } else a) }
      (st', .ok [ ("ok", .bool true), ("id", .int alert.id), ("status", .str "resolved") ])

/-- Modelled from the spec: PATCH /alerts/{id}/reopen is described by the
spec (operations table and external-interface list) but no reopen endpoint
exists anywhere under src/; per the spec it sets is_active to true, clears
resolved_at, answers {ok, id, status: "reopened"}, and 404s on an unknown
id. -/
def reopen_alert (st : ServerState) (alert_id : Int) : ServerState × Except Nat JObj :=
  match st.alerts.find? (fun a => a.id == alert_id) with
  | none => (st, .error 404)
  | some alert =>
      let st' := { st with
        alerts := st.alerts.map (fun a =>
          if a.id == alert_id then { a with is_active := true, resolved_at := none } else a) }
      (st', .ok [ ("ok", .bool true), ("id", .int alert.id), ("status", .str "reopened") ])

/-- The KPI counters of GET /dashboard/data. -/
structure Kpi where
  active_alerts : Nat
  total_alerts : Nat
  events_last_hour : Nat
  total_events : Nat
deriving DecidableEq, Repr

/-- The GET /dashboard/data response body. -/
structure DashResp where
  kpi : Kpi
  alerts : List JObj
  events : List JObj
deriving DecidableEq, Repr

/-- alert_to_dict in dashboard_data (main.py lines 260-271). -/
def alertDict (a : AlertRow) : JObj :=
  [ ("id", .int a.id)
  , ("created_at", .int a.created_at)
  , ("rule", .str a.rule)
  , ("severity", .str a.severity)
  , ("host", optStr a.host)
  , ("src_ip", optStr a.src_ip)
  , ("user", optStr a.user)
  , ("message", .str a.message)
  , ("is_active", .bool a.is_active) ]

/-- event_to_dict in dashboard_data (main.py lines 273-282). -/
def eventDict (e : EventRow) : JObj :=
  [ ("id", .int e.id)
  , ("received_at", .int e.received_at)
  , ("event_type", .str e.event_type)
  , ("host", .str e.host)
  , ("src_ip", optStr e.src_ip)
  , ("user", optStr e.user)
  , ("message", .str e.message) ]

/-- GET /dashboard/data (main.py lines 217-293).  The KPI counters are
computed over the whole state; the alerts list is filtered by active_only
and by truthy severity / src_ip parameters; the events list is the most
recent rows with no filter.  FastAPI has already validated the two limits
into [1, 200] before the handler body runs. -/
def dashboard_data (st : ServerState) (now : Int) (alerts_limit events_limit : Int)
    (active_only : Bool) (severity src_ip : Option String) : DashResp :=
  let hour_ago := now - 3600
  let active_alerts_count := (st.alerts.filter (fun a => a.is_active)).length
  let total_alerts_count := st.alerts.length
  let events_last_hour := (st.events.filter (fun e => hour_ago ≤ e.received_at)).length
  let total_events := st.events.length
  let base0 := st.alerts
  let base1 := if active_only then base0.filter (fun a => a.is_active) else base0
  let base2 := if truthyOpt severity then base1.filter (fun a => a.severity == severity.getD "") else base1
  let base3 := if truthyOpt src_ip then base2.filter (fun a => a.src_ip == src_ip) else base2
  let alerts := (List.insertionSort alertDesc base3).take alerts_limit.toNat
  let events := (List.insertionSort eventDesc st.events).take events_limit.toNat
  { kpi :=
      { active_alerts := active_alerts_count
        total_alerts := total_alerts_count
        events_last_hour := events_last_hour
        total_events := total_events }
    alerts := alerts.map alertDict
    events := events.map eventDict }

/-!
## The log-shipping agent (src/agent/sentinellab_agent.py)

The two event regexes and the syslog-timestamp regex are embedded as
deterministic matchers.  This is faithful because none of the three
patterns ever needs backtracking: every greedy quantifier in them
(a non-whitespace run, a digit run, a whitespace run) is followed either
by the end of the pattern or by a character excluded from the quantifier's
class, so the maximal run is the only candidate that can possibly extend
to a full match.  Character classes are embedded at their ASCII meaning
(plus the common Unicode whitespace for the space class); auth.log lines
are ASCII.
-/

/-- The whitespace class of the re module (ASCII whitespace, the C1
separators, and the usual Unicode space code points). -/
def isPySpace (c : Char) : Bool :=
  c == ' ' || c == '\t' || c == '\n' || c == '\r' || c == '\x0b' || c == '\x0c' ||
  c == '\x1c' || c == '\x1d' || c == '\x1e' || c == '\x1f' || c == '\x85' || c == '\xa0' ||
  c == ' ' || ( ' ' ≤ c && c ≤ ' ') || c == ' ' || c == ' ' ||
  c == ' ' || c == ' ' || c == '　'

/-- The digit class of the regexes, at its ASCII meaning. -/
def isPyDigit (c : Char) : Bool := '0' ≤ c && c ≤ '9'

/-- The word-character class of the regexes, at its ASCII meaning. -/
def isWordChar (c : Char) : Bool :=
  ( 'a' ≤ c && c ≤ 'z') || ( 'A' ≤ c && c ≤ 'Z') || isPyDigit c || c == '_'

/-- Consume an exact literal from the front of the text. -/
def dropLit : List Char → List Char → Option (List Char)
  | [], s => some s
  | _ :: _, [] => none
  | p :: ps, c :: cs => if c == p then dropLit ps cs else none

/-- Consume the maximal nonempty run of characters satisfying p (the only
run a greedy one-or-more quantifier can contribute when the pattern
continues with a character outside p's class). -/
def takeRun1 (p : Char → Bool) (s : List Char) : Option (List Char × List Char) :=
  let run := s.takeWhile p
  if run.isEmpty then none else some (run, s.dropWhile p)

/-- Does the text start with the given literal? -/
def startsWithL : List Char → List Char → Bool
  | [], _ => true
  | _ :: _, [] => false
  | p :: ps, c :: cs => c == p && startsWithL ps cs

/-- Substring containment, embedding Python's "sshd" in line test. -/
def occursIn (pat : List Char) : List Char → Bool
  | [] => pat.isEmpty
  | c :: tl => startsWithL pat (c :: tl) || occursIn pat tl

/-- str.strip: shave leading and trailing whitespace. -/
def pyStrip (s : String) : String :=
  String.mk (((s.data.dropWhile isPySpace).reverse.dropWhile isPySpace).reverse)

/-- Match RE_FAILED, the pattern "Failed password for " then a captured
non-whitespace run, " from ", and a captured dotted quad of digit runs,
anchored at the head of the given text.  Returns (user, ip). -/
def matchFailedAt (s : List Char) : Option (String × String) := do
  let r1 ← dropLit "Failed password for ".data s
  let (user, r2) ← takeRun1 (fun c => !isPySpace c) r1
  let r3 ← dropLit " from ".data r2
  let (d1, r4) ← takeRun1 isPyDigit r3
  let r5 ← dropLit ".".data r4
  let (d2, r6) ← takeRun1 isPyDigit r5
  let r7 ← dropLit ".".data r6
  let (d3, r8) ← takeRun1 isPyDigit r7
  let r9 ← dropLit ".".data r8
  let (d4, _) ← takeRun1 isPyDigit r9
  pure (String.mk user, String.mk (d1 ++ '.' :: d2 ++ '.' :: d3 ++ '.' :: d4))

/-- Match RE_ACCEPTED, the pattern "Accepted " then an uncaptured
non-whitespace run (the method), " for ", the captured user, " from ",
and the captured dotted quad, anchored at the head of the text. -/
def matchAcceptedAt (s : List Char) : Option (String × String) := do
  let r1 ← dropLit "Accepted ".data s
  let (_, r2) ← takeRun1 (fun c => !isPySpace c) r1
  let r3 ← dropLit " for ".data r2
  let (user, r4) ← takeRun1 (fun c => !isPySpace c) r3
  let r5 ← dropLit " from ".data r4
  let (d1, r6) ← takeRun1 isPyDigit r5
  let r7 ← dropLit ".".data r6
  let (d2, r8) ← takeRun1 isPyDigit r7
  let r9 ← dropLit ".".data r8
  let (d3, r10) ← takeRun1 isPyDigit r9
  let r11 ← dropLit ".".data r10
  let (d4, _) ← takeRun1 isPyDigit r11
  pure (String.mk user, String.mk (d1 ++ '.' :: d2 ++ '.' :: d3 ++ '.' :: d4))

/-- RE_FAILED.search: leftmost occurrence wins. -/
def searchFailed : List Char → Option (String × String)
  | [] => none
  | c :: tl =>
    match matchFailedAt (c :: tl) with
    | some r => some r
    | none => searchFailed tl

/-- RE_ACCEPTED.search: leftmost occurrence wins. -/
def searchAccepted : List Char → Option (String × String)
  | [] => none
  | c :: tl =>
    match matchAcceptedAt (c :: tl) with
    | some r => some r
    | none => searchAccepted tl

/-- The clock readings syslog_ts_to_iso makes: datetime.now().year,
datetime.now().month (the default month when the month name is unknown),
and datetime.now(timezone.utc).isoformat() (the fallback when the syslog
timestamp regex does not match). -/
structure AgentClock where
  localYear : Nat
  localMonth : Nat
  utcNowIso : String
deriving DecidableEq, Repr

/-- Decimal value of a digit run. -/
def digitsToNat (ds : List Char) : Nat :=
  ds.foldl (fun n c => n * 10 + (c.toNat - 48)) 0

/-- Match RE_SYSLOG_TS: anchored at the start, three word characters (the
month name), whitespace, a one-or-two digit day, whitespace, an hh:mm:ss
group, whitespace, then any tail without an interior newline (the
dollar anchor tolerates one trailing newline).  The day's digit run must
itself have length at most two, since a longer run leaves a digit where
the pattern demands whitespace whichever way the day quantifier splits
it.  Returns the month name and the day, hour, minute, second values. -/
def matchSyslogTs (s : List Char) : Option (List Char × Nat × Nat × Nat × Nat) := do
  match s with
  | m1 :: m2 :: m3 :: r0 =>
    if isWordChar m1 && isWordChar m2 && isWordChar m3 then do
      let (_, r1) ← takeRun1 isPySpace r0
      let (dayd, r2) ← takeRun1 isPyDigit r1
      if dayd.length ≤ 2 then do
        let (_, r3) ← takeRun1 isPySpace r2
        match r3 with
        | h1 :: h2 :: c1 :: n1 :: n2 :: c2 :: s1 :: s2 :: r4 =>
          if isPyDigit h1 && isPyDigit h2 && c1 == ':' && isPyDigit n1 && isPyDigit n2 &&
             c2 == ':' && isPyDigit s1 && isPyDigit s2 then do
            let (_, r5) ← takeRun1 isPySpace r4
            if (r5.dropLast.all (fun c => c != '\n')) then
              pure ([m1, m2, m3], digitsToNat dayd, digitsToNat [h1, h2],
                    digitsToNat [n1, n2], digitsToNat [s1, s2])
            else none
          else none
        | _ => none
      else none
    else none
  | _ => none

/-- The MONTHS dictionary lookup, with datetime.now().month as the
dict.get default. -/
def monthNum (clk : AgentClock) (m : List Char) : Nat :=
  let ms := String.mk m
  if ms == "Jan" then 1 else if ms == "Feb" then 2 else if ms == "Mar" then 3
  else if ms == "Apr" then 4 else if ms == "May" then 5 else if ms == "Jun" then 6
  else if ms == "Jul" then 7 else if ms == "Aug" then 8 else if ms == "Sep" then 9
  else if ms == "Oct" then 10 else if ms == "Nov" then 11 else if ms == "Dec" then 12
  else clk.localMonth

/-- Gregorian leap-year rule, as the datetime module applies it. -/
def isLeapYear (y : Nat) : Bool :=
  y % 4 == 0 && (y % 100 != 0 || y % 400 == 0)

/-- Length of a month, as the datetime module validates the day field. -/
def daysInMonth (y m : Nat) : Nat :=
  if m == 2 then (if isLeapYear y then 29 else 28)
  else if m == 4 || m == 6 || m == 9 || m == 11 then 30
  else 31

/-- Two-digit zero padding. -/
def pad2 (n : Nat) : String :=
  if n < 10 then "0" ++ toString n else toString n

/-- Four-digit zero padding. -/
def pad4 (n : Nat) : String :=
  if n < 10 then "000" ++ toString n
  else if n < 100 then "00" ++ toString n
  else if n < 1000 then "0" ++ toString n
  else toString n

/-- datetime(year, mon, day, h, mi, s, tzinfo=utc).isoformat(): none when
the constructor raises ValueError on an out-of-range field, otherwise the
ISO-8601 rendering with the UTC offset suffix. -/
def mkDatetimeUtcIso (y mon day h mi s : Nat) : Option String :=
  if 1 ≤ y && y ≤ 9999 && 1 ≤ mon && mon ≤ 12 && 1 ≤ day && day ≤ daysInMonth y mon &&
     h ≤ 23 && mi ≤ 59 && s ≤ 59 then
    some (pad4 y ++ "-" ++ pad2 mon ++ "-" ++ pad2 day ++ "T" ++ pad2 h ++ ":" ++
          pad2 mi ++ ":" ++ pad2 s ++ "+00:00")
  else none

/-- syslog_ts_to_iso (agent lines 28-43): when the syslog-timestamp regex
does not match the line, fall back to the current UTC time; otherwise
build a datetime from the current year and the parsed fields, forced to
UTC, and render it.  A none result is the uncaught ValueError the
datetime constructor raises on out-of-range fields. -/
def syslog_ts_to_iso (clk : AgentClock) (line : String) : Option String :=
  match matchSyslogTs line.data with
  | none => some clk.utcNowIso
  | some (mon3, day, h, mi, s) =>
      mkDatetimeUtcIso clk.localYear (monthNum clk mon3) day h mi s

/-- The event payload dict the agent produces. -/
structure AgentEvent where
  ts : String
  host : String
  event_type : String
  src_ip : Option String
  user : Option String
  message : String
deriving DecidableEq, Repr

/-- parse_auth_line (agent lines 46-77): only lines containing "sshd" are
considered; the failed-password regex sets the classification first and a
match of the accepted regex overwrites it; with no classification the line
is dropped.  The outer Option is exception propagation: a none result is
the ValueError escaping from syslog_ts_to_iso, which the agent does not
catch. -/
def parse_auth_line (clk : AgentClock) (host line : String) : Option (Option AgentEvent) :=
  if !(occursIn "sshd".data line.data) then some none
  else
    let st0 : Option String × Option String × Option String := (none, none, none)
    let st1 := match searchFailed line.data with
      | some (u, ip) => (some "ssh_failed_login", some u, some ip)
      | none => st0
    let st2 := match searchAccepted line.data with
      | some (u, ip) => (some "ssh_login_success", some u, some ip)
      | none => st1
    match st2 with
    | (none, _, _) => some none
    | (some et, u, ip) =>
        match syslog_ts_to_iso clk line with
        | none => none
        | some tsv =>
            some (some { ts := tsv, host := host, event_type := et,
                         src_ip := ip, user := u, message := pyStrip line })

/-!
## Request signing (agent sign_hmac, and the verifier of the spec)

SHA-256 and HMAC-SHA256 are embedded over byte lists (naturals below 256)
with 32-bit words as naturals reduced modulo 2 to the 32.
-/

/-- Truncation to a 32-bit word. -/
def m32 (n : Nat) : Nat := n % 4294967296

/-- 32-bit right rotation. -/
def rotr32 (k x : Nat) : Nat := m32 (x / 2 ^ k + x % 2 ^ k * 2 ^ (32 - k))

/-- Logical right shift. -/
def shr32 (k x : Nat) : Nat := x / 2 ^ k

/-- 32-bit bitwise complement. -/
def not32 (x : Nat) : Nat := Nat.xor x 4294967295

/-- The SHA-256 round constants. -/
def sha256K : List Nat :=
  [
    1116352408, 1899447441, 3049323471, 3921009573, 961987163, 1508970993,
    2453635748, 2870763221, 3624381080, 310598401, 607225278, 1426881987,
    1925078388, 2162078206, 2614888103, 3248222580, 3835390401, 4022224774,
    264347078, 604807628, 770255983, 1249150122, 1555081692, 1996064986,
    2554220882, 2821834349, 2952996808, 3210313671, 3336571891, 3584528711,
    113926993, 338241895, 666307205, 773529912, 1294757372, 1396182291,
    1695183700, 1986661051, 2177026350, 2456956037, 2730485921, 2820302411,
    3259730800, 3345764771, 3516065817, 3600352804, 4094571909, 275423344,
    430227734, 506948616, 659060556, 883997877, 958139571, 1322822218,
    1537002063, 1747873779, 1955562222, 2024104815, 2227730452, 2361852424,
    2428436474, 2756734187, 3204031479, 3329325298 ]

/-- Big-endian byte rendering of a natural, k bytes wide. -/
def beBytes (k n : Nat) : List Nat :=
  (List.range k).map (fun i => n / 2 ^ (8 * (k - 1 - i)) % 256)

/-- SHA-256 padding: append the 0x80 byte, zeros up to 56 mod 64, and the
bit length as eight big-endian bytes. -/
def sha256Pad (msg : List Nat) : List Nat :=
  msg ++ 0x80 :: (List.replicate ((119 - msg.length % 64) % 64) 0 ++ beBytes 8 (8 * msg.length))

/-- Big-endian 32-bit word from four bytes. -/
def beWord (b0 b1 b2 b3 : Nat) : Nat := ((b0 * 256 + b1) * 256 + b2) * 256 + b3

/-- Group a byte list into big-endian 32-bit words. -/
def toWords : List Nat → List Nat
  | b0 :: b1 :: b2 :: b3 :: rest => beWord b0 b1 b2 b3 :: toWords rest
  | _ => []

/-- Split a word list into 16-word blocks. -/
def chunk16 (l : List Nat) : List (List Nat) :=
  match l with
  | [] => []
  | x :: rest => (x :: rest.take 15) :: chunk16 (rest.drop 15)
termination_by l.length
decreasing_by simp; omega

/-- The sigma-0 message-schedule function. -/
def ssig0 (x : Nat) : Nat := Nat.xor (rotr32 7 x) (Nat.xor (rotr32 18 x) (shr32 3 x))

/-- The sigma-1 message-schedule function. -/
def ssig1 (x : Nat) : Nat := Nat.xor (rotr32 17 x) (Nat.xor (rotr32 19 x) (shr32 10 x))

/-- The capital-sigma-0 round function. -/
def bsig0 (x : Nat) : Nat := Nat.xor (rotr32 2 x) (Nat.xor (rotr32 13 x) (rotr32 22 x))

/-- The capital-sigma-1 round function. -/
def bsig1 (x : Nat) : Nat := Nat.xor (rotr32 6 x) (Nat.xor (rotr32 11 x) (rotr32 25 x))

/-- The choice function. -/
def chf (e f g : Nat) : Nat := Nat.xor (Nat.land e f) (Nat.land (not32 e) g)

/-- The majority function. -/
def majf (a b c : Nat) : Nat :=
  Nat.xor (Nat.xor (Nat.land a b) (Nat.land a c)) (Nat.land b c)

/-- Extend 16 words to the 64-word message schedule. -/
def sha256Schedule (w16 : List Nat) : List Nat :=
  (List.range 48).foldl (fun w _ =>
    let n := w.length
    w ++ [m32 (w.getD (n - 16) 0 + ssig0 (w.getD (n - 15) 0) +
               w.getD (n - 7) 0 + ssig1 (w.getD (n - 2) 0))]) w16

/-- The eight 32-bit working registers. -/
structure Sha8 where
  a : Nat
  b : Nat
  c : Nat
  d : Nat
  e : Nat
  f : Nat
  g : Nat
  hh : Nat
deriving DecidableEq, Repr

/-- The SHA-256 initial hash value. -/
def sha256Init : Sha8 :=
  { a := 1779033703, b := 3144134277, c := 1013904242, d := 2773480762
  , e := 1359893119, f := 2600822924, g := 528734635, hh := 1541459225 }

/-- One SHA-256 compression over a 16-word block. -/
def compressBlock (st : Sha8) (w16 : List Nat) : Sha8 :=
  let ws := sha256Schedule w16
  let t := (sha256K.zip ws).foldl (fun s kw =>
    let t1 := m32 (s.hh + bsig1 s.e + chf s.e s.f s.g + kw.1 + kw.2)
    let t2 := m32 (bsig0 s.a + majf s.a s.b s.c)
    { a := m32 (t1 + t2), b := s.a, c := s.b, d := s.c
    , e := m32 (s.d + t1), f := s.e, g := s.f, hh := s.g }) st
  { a := m32 (st.a + t.a), b := m32 (st.b + t.b), c := m32 (st.c + t.c)
  , d := m32 (st.d + t.d), e := m32 (st.e + t.e), f := m32 (st.f + t.f)
  , g := m32 (st.g + t.g), hh := m32 (st.hh + t.hh) }

/-- SHA-256 of a byte list, as 32 digest bytes. -/
def sha256 (msg : List Nat) : List Nat :=
  let blocks := chunk16 (toWords (sha256Pad msg))
  let st := blocks.foldl compressBlock sha256Init
  beBytes 4 st.a ++ beBytes 4 st.b ++ beBytes 4 st.c ++ beBytes 4 st.d ++
  beBytes 4 st.e ++ beBytes 4 st.f ++ beBytes 4 st.g ++ beBytes 4 st.hh

/-- One lowercase hex digit. -/
def hexDigitChar (n : Nat) : Char := "0123456789abcdef".data.getD (n % 16) '0'

/-- hexdigest: the lowercase hexadecimal rendering of a byte list. -/
def hexdigest (bs : List Nat) : String :=
  String.mk (bs.foldr (fun b acc => hexDigitChar (b / 16) :: hexDigitChar b :: acc) [])

/-- UTF-8 encoding of one character. -/
def encChar (c : Char) : List Nat :=
  let n := c.toNat
  if n < 0x80 then [n]
  else if n < 0x800 then [0xC0 + n / 64, 0x80 + n % 64]
  else if n < 0x10000 then [0xE0 + n / 4096, 0x80 + n / 64 % 64, 0x80 + n % 64]
  else [0xF0 + n / 262144, 0x80 + n / 4096 % 64, 0x80 + n / 64 % 64, 0x80 + n % 64]

/-- str.encode(): the UTF-8 bytes of a string. -/
def utf8Bytes (s : String) : List Nat :=
  s.data.foldr (fun c acc => encChar c ++ acc) []

/-- HMAC-SHA256 with a 64-byte block size: hash an over-long key, zero-pad,
then the nested inner/outer hashes over the 0x36/0x5c-masked key. -/
def hmacSha256 (key msg : List Nat) : List Nat :=
  let k1 := if 64 < key.length then sha256 key else key
  let k2 := k1 ++ List.replicate (64 - k1.length) 0
  let ipadded := k2.map (fun b => Nat.xor b 0x36)
  let opadded := k2.map (fun b => Nat.xor b 0x5c)
  sha256 (opadded ++ sha256 (ipadded ++ msg))

/-- sign_hmac (agent lines 80-85), with the timestamp string and nonce as
parameters in place of the time and entropy reads: the signed message is
the timestamp bytes, a newline, the nonce bytes, a newline, and the raw
body bytes; the signature is the hex HMAC-SHA256 digest under the
secret. -/
def sign_hmac (secret ts nonce : String) (body_bytes : List Nat) : String :=
  let msg := utf8Bytes ts ++ [10] ++ utf8Bytes nonce ++ [10] ++ body_bytes
  hexdigest (hmacSha256 (utf8Bytes secret) msg)

/-- Modelled from the spec: the signature recomputation step of the
collector's Request Authentication module, which is absent from src/.  Per
the spec it recomputes the expected signature as HMAC-SHA256 of
timestamp + newline + nonce + newline + raw-request-body under the shared
secret, rendered in hex. -/
def verifierExpectedSig (secret timestamp nonce : String) (rawBody : List Nat) : String :=
  hexdigest (hmacSha256 (utf8Bytes secret)
    (utf8Bytes (timestamp ++ "\n" ++ nonce ++ "\n") ++ rawBody))

/-!
## Supporting lemmas
-/

/-- UTF-8 encoding distributes over character-list concatenation. -/
theorem encFold_append (l1 l2 : List Char) :
    (l1 ++ l2).foldr (fun c acc => encChar c ++ acc) [] =
    l1.foldr (fun c acc => encChar c ++ acc) [] ++
      l2.foldr (fun c acc => encChar c ++ acc) [] := by
  induction l1 with
  | nil => simp
  | cons c cs ih => simp [ih]

/-- UTF-8 encoding distributes over string concatenation. -/
theorem utf8Bytes_append (s t : String) :
    utf8Bytes (s ++ t) = utf8Bytes s ++ utf8Bytes t := by
  unfold utf8Bytes
  rw [String.data_append, encFold_append]

/-- The sixteen lowercase hex digits. -/
def hexChars : List Char := "0123456789abcdef".data

/-- Is a string made of lowercase hex digits only? -/
def isHexLower (s : String) : Bool :=
  s.data.all (fun c => hexChars.elem c)

/-- Every digit the hex renderer emits is a lowercase hex digit. -/
theorem hexDigitChar_mem (n : Nat) : hexDigitChar n ∈ hexChars := by
  have h : n % 16 < 16 := Nat.mod_lt _ (by norm_num)
  unfold hexDigitChar
  rw [List.getD_eq_getElem _ _ (by simpa using h)]
  exact List.getElem_mem _

/-- Every character of a hex rendering is a lowercase hex digit. -/
theorem mem_hexFold (bs : List Nat) :
    ∀ c ∈ bs.foldr (fun b acc => hexDigitChar (b / 16) :: hexDigitChar b :: acc) [], c ∈ hexChars := by
  induction bs with
  | nil => simp
  | cons b tl ih =>
    intro c hc
    simp only [List.foldr_cons, List.mem_cons] at hc
    rcases hc with rfl | rfl | h
    · exact hexDigitChar_mem _
    · exact hexDigitChar_mem _
    · exact ih c h

/-- hexdigest output is lowercase hex. -/
theorem hexdigest_isHexLower (bs : List Nat) : isHexLower (hexdigest bs) = true := by
  unfold isHexLower
  rw [List.all_eq_true]
  intro c hc
  rw [List.elem_iff]
  exact mem_hexFold bs c hc

/-!
## The claims
-/

/-- Claim C9: for every secret, timestamp, nonce, and body, the signature
the agent sends is the lowercase hex digest of HMAC-SHA256 keyed by the
secret over timestamp, newline, nonce, newline, body bytes; and the value
the spec's verifier recomputes from those exact inputs equals the value
the agent computed. -/
theorem C9_signature_roundtrip (secret ts nonce : String) (body : List Nat) :
    sign_hmac secret ts nonce body =
      hexdigest (hmacSha256 (utf8Bytes secret)
        (utf8Bytes ts ++ [10] ++ utf8Bytes nonce ++ [10] ++ body)) ∧
    verifierExpectedSig secret ts nonce body = sign_hmac secret ts nonce body ∧
    isHexLower (sign_hmac secret ts nonce body) = true := by
  refine ⟨rfl, ?_, hexdigest_isHexLower _⟩
  unfold verifierExpectedSig sign_hmac
  have hnl : utf8Bytes "\n" = [10] := rfl
  rw [utf8Bytes_append, utf8Bytes_append, utf8Bytes_append, hnl]

/-- Claim C10: the dashboard-data KPI counters and its events array do not
depend on the active_only, severity, or src_ip parameters; the events
array is always the most recent events by received_at with no filter
applied. -/
theorem C10_dashboard_filters_only_alerts (st : ServerState) (now : Int)
    (alerts_limit events_limit : Int) (ao ao' : Bool) (sev sev' ip ip' : Option String) :
    (dashboard_data st now alerts_limit events_limit ao sev ip).kpi =
      (dashboard_data st now alerts_limit events_limit ao' sev' ip').kpi ∧
    (dashboard_data st now alerts_limit events_limit ao sev ip).events =
      (dashboard_data st now alerts_limit events_limit ao' sev' ip').events ∧
    (dashboard_data st now alerts_limit events_limit ao sev ip).events =
      ((List.insertionSort eventDesc st.events).take events_limit.toNat).map eventDict :=
  ⟨rfl, rfl, rfl⟩

/-- Claim C1 (divergence evidence): the src ingest route performs no
header or signature verification at all — for every request the headers
are ignored, and a concrete POST /ingest carrying no X-Timestamp, X-Nonce
or X-Signature header still succeeds and creates an Event row. -/
theorem C1_ingest_accepts_unsigned_requests :
    (∀ (hdrs : List (String × String)) (st : ServerState) (now : Int) (ev : IngestEvent),
        ingestHttp hdrs st now ev = ingest st now ev) ∧
    (ingestHttp [] { events := [], alerts := [], nextEventId := 1, nextAlertId := 1 } 0
        { ts := { wall := 0, tz := some 0 }, host := "agent-host",
          event_type := "ssh_failed_login", src_ip := some "10.0.0.5",
          user := some "root", message := "Failed password" }).2 =
      { ok := true, event_id := 1 } ∧
    (ingestHttp [] { events := [], alerts := [], nextEventId := 1, nextAlertId := 1 } 0
        { ts := { wall := 0, tz := some 0 }, host := "agent-host",
          event_type := "ssh_failed_login", src_ip := some "10.0.0.5",
          user := some "root", message := "Failed password" }).1.events.length = 1 := by
  refine ⟨fun _ _ _ _ => rfl, by decide, by decide⟩

/-- Claim C7: for every integer limit, GET /events returns at most
min(max(limit,1),500) items and GET /alerts at most min(max(limit,1),200);
a limit of 0 on /events still yields an item when any event exists. -/
theorem C7_limit_clamping (st : ServerState) (limit : Int) :
    (list_events st limit).items.length ≤ (min (max limit 1) 500).toNat ∧
    (list_alerts st limit).items.length ≤ (min (max limit 1) 200).toNat ∧
    (st.events ≠ [] → 1 ≤ (list_events st 0).items.length) := by
  refine ⟨?_, ?_, ?_⟩
  · simp only [list_events, List.length_map, List.length_take]
    omega
  · simp only [list_alerts, List.length_map, List.length_take]
    omega
  · intro h
    have hlen : 0 < st.events.length := List.length_pos.mpr h
    have hs : (List.insertionSort eventDesc st.events).length = st.events.length :=
      List.length_insertionSort _ _
    simp only [list_events, List.length_map, List.length_take]
    omega

/-- Claim C7 witness: a concrete one-event store answers a limit-0 /events
request with one item. -/
theorem C7_limit_clamping_witness :
    1 ≤ (list_events
      { events := [{ id := 1, ts := { wall := 0, tz := some 0 }, host := "h",
                     event_type := "generic", src_ip := none, user := none,
                     message := "m", received_at := 0 }],
        alerts := [], nextEventId := 2, nextAlertId := 1 } 0).items.length :=
  (C7_limit_clamping
    { events := [{ id := 1, ts := { wall := 0, tz := some 0 }, host := "h",
                   event_type := "generic", src_ip := none, user := none,
                   message := "m", received_at := 0 }],
      alerts := [], nextEventId := 2, nextAlertId := 1 } 0).2.2 (by decide)

/-- Claim C6: the Event row a successful /ingest call creates carries the
collector's clock as received_at, carries the payload ts with UTC attached
exactly when the payload ts had no timezone, and is appended to the events
table; no embedded operation ever mutates or deletes an Event row. -/
theorem C6_received_at_collector_clock (st : ServerState) (now : Int) (ev : IngestEvent) :
    (ingest st now ev).1.events = st.events ++ [ingestRow st now ev] ∧
    (ingestRow st now ev).received_at = now ∧
    (ev.ts.tz = none → (ingestRow st now ev).ts = { wall := ev.ts.wall, tz := some 0 }) ∧
    (ev.ts.tz ≠ none → (ingestRow st now ev).ts = ev.ts) ∧
    (∀ i, (resolve_alert st i).1.events = st.events) ∧
    (∀ i, (reopen_alert st i).1.events = st.events) := by
  refine ⟨?_, rfl, ?_, ?_, ?_, ?_⟩
  · unfold ingest
    dsimp only
    split
    · split <;> rfl
    · rfl
  · intro h
    simp [ingestRow, normTs, h]
  · intro h
    rcases htz : ev.ts.tz with _ | o
    · exact absurd htz h
    · simp [ingestRow, normTs, htz]
  · intro i
    unfold resolve_alert
    cases h : st.alerts.find? (fun a => a.id == i) <;> simp [h]
  · intro i
    unfold reopen_alert
    cases h : st.alerts.find? (fun a => a.id == i) <;> simp [h]

/-- Claim C6 witness: concrete ingests, one with a naive payload ts and
one with an aware payload ts, behave as stated. -/
theorem C6_received_at_collector_clock_witness :
    (ingestRow { events := [], alerts := [], nextEventId := 1, nextAlertId := 1 } 7
      { ts := { wall := 3, tz := none }, host := "h", event_type := "generic",
        src_ip := none, user := none, message := "m" }).ts = { wall := 3, tz := some 0 } ∧
    (ingestRow { events := [], alerts := [], nextEventId := 1, nextAlertId := 1 } 7
      { ts := { wall := 3, tz := some 60 }, host := "h", event_type := "generic",
        src_ip := none, user := none, message := "m" }).ts = { wall := 3, tz := some 60 } ∧
    (ingestRow { events := [], alerts := [], nextEventId := 1, nextAlertId := 1 } 7
      { ts := { wall := 3, tz := none }, host := "h", event_type := "generic",
        src_ip := none, user := none, message := "m" }).received_at = 7 :=
  ⟨((C6_received_at_collector_clock _ 7 _).2.2.1 rfl),
   ((C6_received_at_collector_clock _ 7 _).2.2.2.1 (by decide)),
   ((C6_received_at_collector_clock _ 7 _).2.1)⟩

/-- Claim C3 counterexample: resolving an already-resolved alert answers
status "resolved", not "already_resolved"; the response carries no
resolved_at field; and resolving an open alert leaves resolved_at unset
rather than stamping it with the current time. -/
theorem C3_resolve_counterexample :
    (match (resolve_alert
        { events := [],
          alerts := [{ id := 1, created_at := 0, resolved_at := none,
                       rule := "ssh_bruteforce", severity := "high", host := some "h",
                       src_ip := some "10.0.0.5", user := some "u", message := "m",
                       is_active := false }],
          nextEventId := 1, nextAlertId := 2 } 1).2 with
      | .ok o => o.lookup "status"
      | .error _ => none) = some (.str "resolved") ∧
    (match (resolve_alert
        { events := [],
          alerts := [{ id := 1, created_at := 0, resolved_at := none,
                       rule := "ssh_bruteforce", severity := "high", host := some "h",
                       src_ip := some "10.0.0.5", user := some "u", message := "m",
                       is_active := false }],
          nextEventId := 1, nextAlertId := 2 } 1).2 with
      | .ok o => o.lookup "resolved_at"
      | .error _ => none) = none ∧
    ((resolve_alert
        { events := [],
          alerts := [{ id := 1, created_at := 0, resolved_at := none,
                       rule := "ssh_bruteforce", severity := "high", host := some "h",
                       src_ip := some "10.0.0.5", user := some "u", message := "m",
                       is_active := true }],
          nextEventId := 1, nextAlertId := 2 } 1).1.alerts.map
        (fun a => a.resolved_at)) = [none] := by
  refine ⟨rfl, rfl, rfl⟩

/-- Claim C3 as amended: resolve answers 404 on an unknown id; otherwise
it sets is_active to false for the matching alert, answers
{ok, id, status: "resolved"} whether or not the alert was already
resolved, and never touches resolved_at. -/
theorem C3_resolve_characterization (st : ServerState) (i : Int) :
    (st.alerts.find? (fun a => a.id == i) = none →
      resolve_alert st i = (st, .error 404)) ∧
    (∀ al, st.alerts.find? (fun a => a.id == i) = some al →
      resolve_alert st i =
        ({ st with alerts := st.alerts.map (fun x =>
              if x.id == i then { x with is_active := false } else x) },
         .ok [("ok", .bool true), ("id", .int al.id), ("status", .str "resolved")]) ∧
      (resolve_alert st i).1.alerts.map (fun x => x.resolved_at) =
        st.alerts.map (fun x => x.resolved_at)) := by
  constructor
  · intro h
    unfold resolve_alert
    rw [h]
  · intro al hal
    unfold resolve_alert
    rw [hal]
    refine ⟨rfl, ?_⟩
    simp only [List.map_map]
    apply List.map_congr_left
    intro x _
    simp only [Function.comp]
    split <;> rfl

/-- Claim C3 amended-claim witness: on a concrete two-alert store, resolve
flips is_active of the matching alert only and preserves every
resolved_at. -/
theorem C3_resolve_characterization_witness :
    resolve_alert
      { events := [],
        alerts := [{ id := 1, created_at := 0, resolved_at := none,
                     rule := "ssh_bruteforce", severity := "high", host := some "h",
                     src_ip := some "10.0.0.5", user := some "u", message := "m",
                     is_active := true },
                   { id := 2, created_at := 3, resolved_at := some 4,
                     rule := "ssh_bruteforce", severity := "high", host := some "h",
                     src_ip := some "10.0.0.6", user := some "u", message := "m2",
                     is_active := false }],
        nextEventId := 1, nextAlertId := 3 } 1 =
      ({ events := [],
         alerts := [{ id := 1, created_at := 0, resolved_at := none,
                      rule := "ssh_bruteforce", severity := "high", host := some "h",
                      src_ip := some "10.0.0.5", user := some "u", message := "m",
                      is_active := false },
                    { id := 2, created_at := 3, resolved_at := some 4,
                      rule := "ssh_bruteforce", severity := "high", host := some "h",
                      src_ip := some "10.0.0.6", user := some "u", message := "m2",
                      is_active := false }],
         nextEventId := 1, nextAlertId := 3 },
       .ok [("ok", .bool true), ("id", .int 1), ("status", .str "resolved")]) := by
  have h := ((C3_resolve_characterization
    { events := [],
      alerts := [{ id := 1, created_at := 0, resolved_at := none,
                   rule := "ssh_bruteforce", severity := "high", host := some "h",
                   src_ip := some "10.0.0.5", user := some "u", message := "m",
                   is_active := true },
                 { id := 2, created_at := 3, resolved_at := some 4,
                   rule := "ssh_bruteforce", severity := "high", host := some "h",
                   src_ip := some "10.0.0.6", user := some "u", message := "m2",
                   is_active := false }],
      nextEventId := 1, nextAlertId := 3 } 1).2
    { id := 1, created_at := 0, resolved_at := none,
      rule := "ssh_bruteforce", severity := "high", host := some "h",
      src_ip := some "10.0.0.5", user := some "u", message := "m",
      is_active := true } (by decide)).1
  rw [h]
  rfl

/-- Claim C4: the reopen operation (modelled from the spec, no reopen
endpoint exists under src/) answers 404 on an unknown id and otherwise
sets is_active to true, clears resolved_at, and answers
{ok, id, status: "reopened"}. -/
theorem C4_reopen_characterization (st : ServerState) (i : Int) :
    (st.alerts.find? (fun a => a.id == i) = none →
      reopen_alert st i = (st, .error 404)) ∧
    (∀ al, st.alerts.find? (fun a => a.id == i) = some al →
      reopen_alert st i =
        ({ st with alerts := st.alerts.map (fun x =>
              if x.id == i then { x with is_active := true, resolved_at := none } else x) },
         .ok [("ok", .bool true), ("id", .int al.id), ("status", .str "reopened")])) := by
  constructor
  · intro h
    unfold reopen_alert
    rw [h]
  · intro al hal
    unfold reopen_alert
    rw [hal]

/-- Claim C4 witness: reopening a concrete resolved alert reactivates it,
clears its resolved_at, and answers status "reopened"; reopening an
unknown id answers 404. -/
theorem C4_reopen_characterization_witness :
    reopen_alert
      { events := [],
        alerts := [{ id := 1, created_at := 0, resolved_at := some 9,
                     rule := "ssh_bruteforce", severity := "high", host := some "h",
                     src_ip := some "10.0.0.5", user := some "u", message := "m",
                     is_active := false }],
        nextEventId := 1, nextAlertId := 2 } 1 =
      ({ events := [],
         alerts := [{ id := 1, created_at := 0, resolved_at := none,
                      rule := "ssh_bruteforce", severity := "high", host := some "h",
                      src_ip := some "10.0.0.5", user := some "u", message := "m",
                      is_active := true }],
         nextEventId := 1, nextAlertId := 2 },
       .ok [("ok", .bool true), ("id", .int 1), ("status", .str "reopened")]) ∧
    reopen_alert
      { events := [],
        alerts := [{ id := 1, created_at := 0, resolved_at := some 9,
                     rule := "ssh_bruteforce", severity := "high", host := some "h",
                     src_ip := some "10.0.0.5", user := some "u", message := "m",
                     is_active := false }],
        nextEventId := 1, nextAlertId := 2 } 77 =
      ({ events := [],
         alerts := [{ id := 1, created_at := 0, resolved_at := some 9,
                      rule := "ssh_bruteforce", severity := "high", host := some "h",
                      src_ip := some "10.0.0.5", user := some "u", message := "m",
                      is_active := false }],
         nextEventId := 1, nextAlertId := 2 },
       .error 404) := by
  constructor
  · have h := ((C4_reopen_characterization
      { events := [],
        alerts := [{ id := 1, created_at := 0, resolved_at := some 9,
                     rule := "ssh_bruteforce", severity := "high", host := some "h",
                     src_ip := some "10.0.0.5", user := some "u", message := "m",
                     is_active := false }],
        nextEventId := 1, nextAlertId := 2 } 1).2
      { id := 1, created_at := 0, resolved_at := some 9,
        rule := "ssh_bruteforce", severity := "high", host := some "h",
        src_ip := some "10.0.0.5", user := some "u", message := "m",
        is_active := false } (by decide))
    rw [h]
    rfl
  · exact (C4_reopen_characterization _ 77).1 (by decide)

/-- The created_at carried by a serialized alert item (0 when absent). -/
def itemCreatedAt (it : JObj) : Int :=
  match it.lookup "created_at" with
  | some (.int n) => n
  | _ => 0

/-- Claim C8 counterexample: an alert whose resolved_at is set is
serialized by GET /alerts without any resolved_at field. -/
theorem C8_resolved_at_missing_counterexample :
    ((list_alerts
      { events := [],
        alerts := [{ id := 1, created_at := 5, resolved_at := some 9,
                     rule := "ssh_bruteforce", severity := "high", host := none,
                     src_ip := none, user := none, message := "m",
                     is_active := false }],
        nextEventId := 1, nextAlertId := 2 } 50).items.map
      (fun it => it.map Prod.fst)) =
      [["id", "created_at", "rule", "severity", "host", "src_ip", "user",
        "message", "is_active"]] ∧
    ((list_alerts
      { events := [],
        alerts := [{ id := 1, created_at := 5, resolved_at := some 9,
                     rule := "ssh_bruteforce", severity := "high", host := none,
                     src_ip := none, user := none, message := "m",
                     is_active := false }],
        nextEventId := 1, nextAlertId := 2 } 50).items.getD 0 []).lookup "resolved_at"
      = none := by
  refine ⟨rfl, rfl⟩

/-- Claim C8 as amended: every GET /alerts item carries exactly the fields
id, created_at, rule, severity, host, src_ip, user, message, is_active
(resolved_at is omitted), and items are ordered by created_at
descending. -/
theorem C8_alert_items_fields_and_order (st : ServerState) (limit : Int) :
    (list_alerts st limit).items.map (fun it => it.map Prod.fst) =
      List.replicate (list_alerts st limit).items.length
        ["id", "created_at", "rule", "severity", "host", "src_ip", "user",
         "message", "is_active"] ∧
    (list_alerts st limit).items.Pairwise
      (fun x y => itemCreatedAt y ≤ itemCreatedAt x) := by
  constructor
  · simp only [list_alerts, List.map_map, List.length_map]
    have h : ((fun it => List.map Prod.fst it) ∘ alertItem) =
        (fun _ : AlertRow =>
          ["id", "created_at", "rule", "severity", "host", "src_ip", "user",
           "message", "is_active"]) := rfl
    rw [h, List.map_const']
  · simp only [list_alerts]
    rw [List.pairwise_map]
    have hsorted : ((List.insertionSort alertDesc st.alerts).take
        (max 1 (min limit 200)).toNat).Pairwise alertDesc :=
      (List.sorted_insertionSort alertDesc st.alerts).sublist (List.take_sublist _ _)
    exact hsorted.imp (fun {a b} h => h)

/-- Claim C2: on ingesting an ssh_failed_login event with a non-empty
src_ip, a new ssh_bruteforce alert — severity high, active, host, src_ip
and user copied from the triggering event — is appended exactly when the
count of ssh_failed_login events for that src_ip received in the last 2
minutes (the just-inserted event included) reaches 5 and no ssh_bruteforce
alert for that src_ip was created in the last 2 minutes; otherwise the
alerts table is unchanged. -/
theorem C2_bruteforce_alert_iff (st : ServerState) (now : Int) (ev : IngestEvent) (s : String)
    (htype : ev.event_type = "ssh_failed_login") (hip : ev.src_ip = some s) (hs : s ≠ "") :
    ((5 ≤ failCountFor (st.events ++ [ingestRow st now ev]) ev.src_ip (now - 120) ∧
        hasRecentAlert st.alerts ev.src_ip (now - 120) = false) →
      (ingest st now ev).1.alerts =
        st.alerts ++ [{ id := st.nextAlertId, created_at := now, resolved_at := none,
                        rule := "ssh_bruteforce", severity := "high", host := some ev.host,
                        src_ip := ev.src_ip, user := ev.user,
                        message := "SSH brute force suspected: " ++
                          toString (failCountFor (st.events ++ [ingestRow st now ev])
                            ev.src_ip (now - 120)) ++
                          " failures in 2 min from " ++ s,
                        is_active := true }]) ∧
    (¬(5 ≤ failCountFor (st.events ++ [ingestRow st now ev]) ev.src_ip (now - 120) ∧
        hasRecentAlert st.alerts ev.src_ip (now - 120) = false) →
      (ingest st now ev).1.alerts = st.alerts) := by
  have hrowtype : ((ingestRow st now ev).event_type == "ssh_failed_login") = true := by
    simp [ingestRow, htype]
  have hrowip : truthyOpt (ingestRow st now ev).src_ip = true := by
    simp [ingestRow, hip, truthyOpt, hs]
  constructor
  · rintro ⟨h5, hdup⟩
    unfold ingest
    dsimp only
    rw [hrowtype, hrowip]
    have hproj : (ingestRow st now ev).src_ip = ev.src_ip := rfl
    rw [hproj, decide_eq_true h5, hdup]
    simp only [Bool.and_self, Bool.not_false, Bool.and_true, if_true]
    simp [bruteforceAlert, ingestRow, hip]
  · intro hneg
    unfold ingest
    dsimp only
    rw [hrowtype, hrowip]
    have hproj : (ingestRow st now ev).src_ip = ev.src_ip := rfl
    rw [hproj]
    simp only [Bool.and_self, if_true]
    by_cases h5 : 5 ≤ failCountFor (st.events ++ [ingestRow st now ev]) ev.src_ip (now - 120)
    · have hdup : hasRecentAlert st.alerts ev.src_ip (now - 120) = true := by
        rcases Bool.eq_false_or_eq_true (hasRecentAlert st.alerts ev.src_ip (now - 120)) with h | h
        · exact h
        · exact absurd ⟨h5, h⟩ hneg
      rw [decide_eq_true h5, hdup]
      rfl
    · rw [decide_eq_false h5]
      rfl

/-- A stored failed-login row for the brute-force scenario. -/
def c2row (n : Int) : EventRow :=
  { id := n, ts := { wall := 0, tz := some 0 }, host := "h",
    event_type := "ssh_failed_login", src_ip := some "10.0.0.5",
    user := some "root", message := "Failed password for root from 10.0.0.5",
    received_at := n }

/-- The incoming failed-login payload for the brute-force scenario. -/
def c2evt : IngestEvent :=
  { ts := { wall := 0, tz := some 0 }, host := "h",
    event_type := "ssh_failed_login", src_ip := some "10.0.0.5",
    user := some "root", message := "Failed password for root from 10.0.0.5" }

/-- The alert the 5th failure raises in the brute-force scenario. -/
def c2alert : AlertRow :=
  { id := 1, created_at := 10, resolved_at := none, rule := "ssh_bruteforce",
    severity := "high", host := some "h", src_ip := some "10.0.0.5",
    user := some "root",
    message := "SSH brute force suspected: 5 failures in 2 min from 10.0.0.5",
    is_active := true }

/-- Claim C2 witness: within one 2-minute window the 4th failure raises no
alert, the 5th raises exactly one, and a 6th is suppressed by the recent
alert. -/
theorem C2_bruteforce_alert_iff_witness :
    (ingest { events := [c2row 1, c2row 2, c2row 3], alerts := [],
              nextEventId := 4, nextAlertId := 1 } 10 c2evt).1.alerts = [] ∧
    (ingest { events := [c2row 1, c2row 2, c2row 3, c2row 4], alerts := [],
              nextEventId := 5, nextAlertId := 1 } 10 c2evt).1.alerts = [c2alert] ∧
    (ingest { events := [c2row 1, c2row 2, c2row 3, c2row 4, c2row 5],
              alerts := [c2alert], nextEventId := 6, nextAlertId := 2 } 20
      c2evt).1.alerts = [c2alert] := by
  refine ⟨?_, ?_, ?_⟩
  · exact (C2_bruteforce_alert_iff
      { events := [c2row 1, c2row 2, c2row 3], alerts := [],
        nextEventId := 4, nextAlertId := 1 } 10 c2evt "10.0.0.5"
      rfl rfl (by decide)).2 (by decide)
  · exact (C2_bruteforce_alert_iff
      { events := [c2row 1, c2row 2, c2row 3, c2row 4], alerts := [],
        nextEventId := 5, nextAlertId := 1 } 10 c2evt "10.0.0.5"
      rfl rfl (by decide)).1 ⟨by decide, by decide⟩
  · exact (C2_bruteforce_alert_iff
      { events := [c2row 1, c2row 2, c2row 3, c2row 4, c2row 5],
        alerts := [c2alert], nextEventId := 6, nextAlertId := 2 } 20 c2evt "10.0.0.5"
      rfl rfl (by decide)).2 (by decide)

/-- Claim C5: the agent parser drops a line (no event) when it lacks the
substring sshd or matches neither pattern; a failed-password match yields
ssh_failed_login with the captured user and src_ip; an accepted match
yields ssh_login_success with its captures; and on a double match the
accepted classification and captures win (the failed-pattern hypotheses
are absent from the last case).  The positive cases are stated for lines
whose timestamp rendering succeeds, since the source would propagate a
ValueError out of the datetime constructor otherwise. -/
theorem C5_parse_auth_line_classification (clk : AgentClock) (host line : String) :
    (occursIn "sshd".data line.data = false → parse_auth_line clk host line = some none) ∧
    (searchFailed line.data = none → searchAccepted line.data = none →
      parse_auth_line clk host line = some none) ∧
    (∀ u ip tsv, occursIn "sshd".data line.data = true →
      searchFailed line.data = some (u, ip) → searchAccepted line.data = none →
      syslog_ts_to_iso clk line = some tsv →
      parse_auth_line clk host line =
        some (some { ts := tsv, host := host, event_type := "ssh_failed_login",
                     src_ip := some ip, user := some u, message := pyStrip line })) ∧
    (∀ u ip tsv, occursIn "sshd".data line.data = true →
      searchAccepted line.data = some (u, ip) →
      syslog_ts_to_iso clk line = some tsv →
      parse_auth_line clk host line =
        some (some { ts := tsv, host := host, event_type := "ssh_login_success",
                     src_ip := some ip, user := some u, message := pyStrip line })) := by
  refine ⟨?_, ?_, ?_, ?_⟩
  · intro h
    simp [parse_auth_line, h]
  · intro hf ha
    by_cases h : occursIn "sshd".data line.data <;>
      simp [parse_auth_line, h, hf, ha]
  · intro u ip tsv hsshd hf ha hts
    simp [parse_auth_line, hsshd, hf, ha, hts]
  · intro u ip tsv hsshd ha hts
    rcases hf : searchFailed line.data with _ | p <;>
      simp [parse_auth_line, hsshd, hf, ha, hts]

/-- The agent clock fixed for the parser witness. -/
def c5clk : AgentClock :=
  { localYear := 2026, localMonth := 10, utcNowIso := "2026-10-12T00:00:00+00:00" }

/-- Claim C5 witness: the two example auth.log lines of the source are
classified with their captures, and a non-sshd line is dropped. -/
theorem C5_parse_auth_line_classification_witness :
    parse_auth_line c5clk "ubuntu"
        "Feb 17 10:20:28 ubuntu sshd[1234]: Failed password for root from 10.0.0.5 port 54321 ssh2\n" =
      some (some { ts := "2026-02-17T10:20:28+00:00", host := "ubuntu",
                   event_type := "ssh_failed_login", src_ip := some "10.0.0.5",
                   user := some "root",
                   message := "Feb 17 10:20:28 ubuntu sshd[1234]: Failed password for root from 10.0.0.5 port 54321 ssh2" }) ∧
    parse_auth_line c5clk "ubuntu"
        "Feb 17 10:20:30 ubuntu sshd[1234]: Accepted password for ubuntu from 10.0.0.5 port 54321 ssh2\n" =
      some (some { ts := "2026-02-17T10:20:30+00:00", host := "ubuntu",
                   event_type := "ssh_login_success", src_ip := some "10.0.0.5",
                   user := some "ubuntu",
                   message := "Feb 17 10:20:30 ubuntu sshd[1234]: Accepted password for ubuntu from 10.0.0.5 port 54321 ssh2" }) ∧
    parse_auth_line c5clk "ubuntu"
        "Feb 17 10:20:31 ubuntu cron[77]: session opened for user root\n" = some none := by
  refine ⟨?_, ?_, ?_⟩
  · exact (C5_parse_auth_line_classification c5clk "ubuntu" _).2.2.1
      "root" "10.0.0.5" "2026-02-17T10:20:28+00:00"
      (by decide) (by decide) (by decide) (by decide)
  · exact (C5_parse_auth_line_classification c5clk "ubuntu" _).2.2.2
      "ubuntu" "10.0.0.5" "2026-02-17T10:20:30+00:00"
      (by decide) (by decide) (by decide)
  · exact (C5_parse_auth_line_classification c5clk "ubuntu" _).1 (by decide)
